import Mathlib

set_option maxRecDepth 2000

/-!
Verification of the batched LLM job-matching pipeline of `src/main.py` in the
AI_Job_Search_and_match repository.

The Python functions `analyze_resume`, `analyze_job_batch` and
`analyze_jobs_in_batches` are shallowly embedded: the Groq client is an
oracle giving each LLM call either a response string or a provider failure,
stateful effects (call counts, sleeps, warnings, request contents) are an
explicit state record threaded through the functions, and a Python exception
is the error side of `Except`.  `json.loads` and the two pandas operations
the code relies on (`pd.DataFrame` over parsed JSON, `sort_values` on
`match_score` descending) are embedded over an explicit JSON value type.
-/

/-- JSON values as produced by Python `json.loads`.  Number literals are
restricted to integers, the only numeric shape occurring in the runs
verified here; fraction and exponent literals are rejected by the embedding
(see `pNum`). -/
inductive JValue where
  | jnull : JValue
  | jbool : Bool → JValue
  | jnum : Int → JValue
  | jstr : String → JValue
  | jarr : List JValue → JValue
  | jobj : List (String × JValue) → JValue

/-- A row of a pandas DataFrame built from a list of parsed JSON objects:
the fields present in that row, in insertion order. -/
abbrev Row := List (String × JValue)

/-- A pandas DataFrame as used by this code: its list of rows. -/
abbrev Df := List Row

/-- Whitespace accepted between JSON tokens by `json.loads`. -/
def isWsChar (c : Char) : Bool := ([' ', '\t', '\n', '\r'] : List Char).contains c

/-- Skip inter-token whitespace. -/
def dropWs (cs : List Char) : List Char := cs.dropWhile isWsChar

/-- Value of one hexadecimal digit, read off the code point (48-57 are the
decimal digits, 97-102 lower case a-f, 65-70 upper case A-F). -/
def hexVal (c : Char) : Option Nat :=
  let n := c.toNat
  if 48 ≤ n && n ≤ 57 then some (n - 48)
  else if 97 ≤ n && n ≤ 102 then some (n - 87)
  else if 65 ≤ n && n ≤ 70 then some (n - 55)
  else none

/-- Body of a JSON string literal, after the opening quote, mirroring the
strict `json.loads` scanner: a closing quote ends the string, a backslash
introduces one of the eight JSON escapes or a 4-hex-digit unicode escape,
and raw control characters are rejected.  The first argument is fuel; every
call site passes at least the length of the remaining input plus one, so
the fuel never runs out. -/
def pStr : Nat → List Char → List Char → Except String (String × List Char)
  | 0, _, _ => .error ("fuel exhausted")
  | fuel + 1, acc, cs =>
    match cs with
    | [] => .error ("unterminated string")
    | c :: rest =>
      if c = '"' then .ok (String.mk acc.reverse, rest)
      else if c = '\\' then
        match rest with
        | [] => .error ("truncated escape")
        | e :: rest2 =>
          if e = '"' then pStr fuel ('"' :: acc) rest2
          else if e = '\\' then pStr fuel ('\\' :: acc) rest2
          else if e = '/' then pStr fuel ('/' :: acc) rest2
          else if e = 'n' then pStr fuel ('\n' :: acc) rest2
          else if e = 't' then pStr fuel ('\t' :: acc) rest2
          else if e = 'r' then pStr fuel ('\r' :: acc) rest2
          else if e = 'b' then pStr fuel (Char.ofNat 8 :: acc) rest2
          else if e = 'f' then pStr fuel (Char.ofNat 12 :: acc) rest2
          else if e = 'u' then
            match rest2 with
            | h1 :: h2 :: h3 :: h4 :: rest3 =>
              match hexVal h1, hexVal h2, hexVal h3, hexVal h4 with
              | some a, some b, some c2, some d =>
                pStr fuel (Char.ofNat (((a * 16 + b) * 16 + c2) * 16 + d) :: acc) rest3
              | _, _, _, _ => .error ("invalid unicode escape")
            | _ => .error ("invalid unicode escape")
          else .error ("invalid escape")
      else if c.toNat < 32 then .error ("control character in string")
      else pStr fuel (c :: acc) rest

/-- Is the character a decimal digit (code points 48 to 57). -/
def isDigitChar (c : Char) : Bool := 48 ≤ c.toNat && c.toNat ≤ 57

/-- Decimal value of a digit list, most significant first. -/
def natOfDigits (ds : List Char) : Nat :=
  ds.foldl (fun a c => 10 * a + (c.toNat - 48)) 0

/-- Integer literal scan mirroring the `json.loads` number grammar
restricted to integers: an optional minus sign, then either a single 0 or a
nonzero digit followed by digits (after a leading 0 the scan stops, as the
CPython number regex does, so a longer 0-led literal leaves trailing input
behind).  A following full stop, e or E would start a float literal, which
never occurs in the runs verified here; the embedding rejects it. -/
def pNum (cs : List Char) : Except String (Int × List Char) :=
  let sign : Bool × List Char :=
    match cs with
    | '-' :: rest => (true, rest)
    | _ => (false, cs)
  match sign.2 with
  | [] => .error ("expecting value")
  | d :: tl =>
    if isDigitChar d then
      let digits : List Char := if d = '0' then [d] else (d :: tl).takeWhile isDigitChar
      let rest : List Char := if d = '0' then tl else (d :: tl).dropWhile isDigitChar
      let n : Int := Int.ofNat (natOfDigits digits)
      let v : Int := if sign.1 then -n else n
      match rest with
      | c :: _ =>
        if c = '.' || c = 'e' || c = 'E' then .error ("float literal: not modeled")
        else .ok (v, rest)
      | [] => .ok (v, rest)
    else .error ("expecting value")

/-- Insert key k with value v into an association list the way a Python dict
assignment does: an existing key keeps its position but takes the new value
(`json.loads` keeps the last value of a duplicated key), a new key is
appended. -/
def upsert (kvs : List (String × JValue)) (k : String) (v : JValue) :
    List (String × JValue) :=
  if kvs.any (fun p => p.1 = k) then
    kvs.map (fun p => if p.1 = k then (k, v) else p)
  else kvs ++ [(k, v)]

/-- Mode of the recursive-descent JSON reader: reading a value, reading the
elements of an array (with the elements read so far), or reading the
members of an object (with the members read so far). -/
inductive PState where
  | pv : PState
  | pa : List JValue → PState
  | po : List (String × JValue) → PState

/-- The strict JSON reader, one mode-tagged recursion structural on fuel so
that the kernel can evaluate it.  Arrays and objects recurse through mode
`pv` for each element; every recursion is preceded by at least one consumed
character per two recursive steps, so the fuel `jsonLoads` passes is always
sufficient. -/
def parseStep : Nat → PState → List Char → Except String (JValue × List Char)
  | 0, _, _ => .error ("fuel exhausted")
  | fuel + 1, PState.pv, cs =>
    match dropWs cs with
    | [] => .error ("expecting value")
    | c :: rest =>
      if c = '"' then
        match pStr (rest.length + 1) [] rest with
        | .ok (s, cs2) => .ok (JValue.jstr s, cs2)
        | .error e => .error e
      else if c = '[' then
        match dropWs rest with
        | ']' :: cs2 => .ok (JValue.jarr [], cs2)
        | cs2 => parseStep fuel (PState.pa []) cs2
      else if c = '\x7b' then
        match dropWs rest with
        | '\x7d' :: cs2 => .ok (JValue.jobj [], cs2)
        | cs2 => parseStep fuel (PState.po []) cs2
      else if c = 't' then
        match rest with
        | 'r' :: 'u' :: 'e' :: cs2 => .ok (JValue.jbool true, cs2)
        | _ => .error ("expecting value")
      else if c = 'f' then
        match rest with
        | 'a' :: 'l' :: 's' :: 'e' :: cs2 => .ok (JValue.jbool false, cs2)
        | _ => .error ("expecting value")
      else if c = 'n' then
        match rest with
        | 'u' :: 'l' :: 'l' :: cs2 => .ok (JValue.jnull, cs2)
        | _ => .error ("expecting value")
      else
        match pNum (c :: rest) with
        | .ok (n, cs2) => .ok (JValue.jnum n, cs2)
        | .error e => .error e
  | fuel + 1, PState.pa acc, cs =>
    match parseStep fuel PState.pv cs with
    | .error e => .error e
    | .ok (v, cs1) =>
      match dropWs cs1 with
      | ',' :: cs2 => parseStep fuel (PState.pa (acc ++ [v])) cs2
      | ']' :: cs2 => .ok (JValue.jarr (acc ++ [v]), cs2)
      | _ => .error ("expecting comma or closing bracket")
  | fuel + 1, PState.po acc, cs =>
    match dropWs cs with
    | '"' :: cs1 =>
      match pStr (cs1.length + 1) [] cs1 with
      | .error e => .error e
      | .ok (k, cs2) =>
        match dropWs cs2 with
        | ':' :: cs3 =>
          match parseStep fuel PState.pv cs3 with
          | .error e => .error e
          | .ok (v, cs4) =>
            match dropWs cs4 with
            | ',' :: cs5 => parseStep fuel (PState.po (upsert acc k v)) cs5
            | '\x7d' :: cs5 => .ok (JValue.jobj (upsert acc k v), cs5)
            | _ => .error ("expecting comma or closing brace")
        | _ => .error ("expecting colon")
    | _ => .error ("expecting property name")

/-- Embedding of Python `json.loads`: parse one JSON document and require
that nothing but whitespace follows it (CPython raises Extra data
otherwise). -/
def jsonLoads (s : String) : Except String JValue :=
  match parseStep (2 * s.length + 4) PState.pv s.data with
  | .error e => .error e
  | .ok (v, rest) =>
    if (dropWs rest).isEmpty then .ok v else .error ("Extra data")

/-- True on a parsed JSON object. -/
def isObjVal : JValue → Bool
  | JValue.jobj _ => true
  | _ => false

/-- True on a parsed scalar (anything but an array or an object). -/
def isScalarVal : JValue → Bool
  | JValue.jarr _ => false
  | JValue.jobj _ => false
  | _ => true

/-- Embeds `pd.DataFrame(matches)` (main.py line 161) on the shapes
`json.loads` feeds it in this code: a list of dicts gives one row per dict
carrying exactly the fields of that dict; a list of scalars gives one row per
scalar under the single positional column (labelled "0" here, the integer 0
in pandas); None gives the empty frame; a top-level scalar raises
(DataFrame constructor not properly called), as does a dict of scalars.
pandas accepts a few further exotic shapes (a dict of lists, a list of
lists) that never occur in the verified runs; the embedding conservatively
maps those to an error and no theorem relies on them. -/
def dataFrameOfMatches : JValue → Except String Df
  | JValue.jnull => .ok []
  | JValue.jarr xs =>
    if xs.all isObjVal then
      .ok (xs.map fun v => match v with | JValue.jobj kvs => kvs | _ => [])
    else if xs.all isScalarVal then
      .ok (xs.map fun v => [("0", v)])
    else .error ("DataFrame: input shape not modeled")
  | _ => .error ("DataFrame constructor not properly called")

/-- The response handling inside the try of `analyze_job_batch` (main.py
lines 160-161): `json.loads` on the response content, then `pd.DataFrame`
on the parsed value.  The error side is the exception raised, to be caught
by the except clause of line 162. -/
def parseToDf (content : String) : Except String Df :=
  match jsonLoads content with
  | .error e => .error e
  | .ok v => dataFrameOfMatches v

/-- Embeds `DataFrame.empty` as tested at main.py line 197: true when either axis
has length 0, i.e. there are no rows, or there are rows but no columns (the
column set of a frame built from a list of dicts is the union of their
key sets). -/
def dfEmpty (df : Df) : Bool := df.isEmpty || df.all List.isEmpty

/-- Field access in a row; none when the row misses the key (a NaN cell or
an absent column in pandas terms). -/
def lookupField (r : Row) (k : String) : Option JValue :=
  match r with
  | [] => none
  | (k2, v) :: rest => if k2 = k then some v else lookupField rest k

/-- The match_score sort key of a row: its integer value when present. -/
def rowScore (r : Row) : Option Int :=
  match lookupField r ("match_score") with
  | some (JValue.jnum n) => some n
  | _ => none

/-- Sort key with a placeholder for keyless rows (those rows are split off
before sorting and never compared through this default). -/
def scoreOf (r : Row) : Int := (rowScore r).getD 0

/-- Ascending insertion that puts the new row after existing rows of equal
key, which is what the stable numpy argsort underlying the pandas sort does
at the array sizes arising here (numpy runs an insertion sort below 16
elements). -/
def insertRow (r : Row) : List Row → List Row
  | [] => [r]
  | x :: xs => if scoreOf r < scoreOf x then r :: x :: xs else x :: insertRow r xs

/-- Stable ascending sort by match_score: a left fold of stable
insertions. -/
def sortRowsAsc (df : List Row) : List Row :=
  df.foldl (fun acc r => insertRow r acc) []

/-- Embeds `final_matches.sort_values` on match_score with ascending false
and the default quicksort kind (main.py line 209).  For a descending sort,
pandas nargsort first reverses the non-NaN values together with their index
array, then takes an ascending argsort of that reversed data (stable at the
sizes arising here, where numpy runs an insertion sort), and finally
reverses the resulting indexer — the two reversals cancel on groups of
equal keys, so rows of equal score keep their ORIGINAL relative order (the
tie-stable descending behavior the pandas test suite pins down).  Rows
whose match_score cell is NaN (the key was missing from their source dict
after `pd.concat`) are appended last in original order; when no row has the
column at all a KeyError is raised.  A present but non-integer score value
never occurs in the verified runs and is mapped to an error. -/
def sort_values_desc (df : Df) : Except String Df :=
  if df.all (fun r => (lookupField r ("match_score")).isNone) then
    .error ("KeyError: match_score")
  else if df.any (fun r =>
      match lookupField r ("match_score") with
      | some (JValue.jnum _) => false
      | none => false
      | some _ => true) then
    .error ("TypeError: unorderable match_score values")
  else
    .ok ((sortRowsAsc ((df.filter fun r => (rowScore r).isSome)).reverse).reverse
          ++ df.filter fun r => (rowScore r).isNone)

/-- Python string slicing s[:n], rendered over the character list (the
byte-position machinery inside the core String.take is infeasible for the
kernel to reduce; taking from the character list is the same character
slice Python performs). -/
def strTake (s : String) (n : Nat) : String := String.mk (s.data.take n)

/-- A scraped job posting, restricted to the fields `analyze_job_batch`
reads: the title (main.py line 139) and the description (line 140). -/
structure Job where
  title : String
  description : String

/-- One entry of the jobs_info descriptor list (main.py lines 136-143). -/
structure JobInfo where
  index : Nat
  title : String
  desc : String
deriving DecidableEq

/-- Observable effects of a search session, in chronological order: an LLM
call made by `analyze_resume` (carrying the text it summarizes), an LLM
call made by the scorer (carrying the jobs_info descriptor list it
transmits), a `time.sleep` of the given number of seconds, and an
`st.warning` shown to the caller. -/
inductive Event where
  | summarize : String → Event
  | chatScore : List JobInfo → Event
  | sleep : Nat → Event
  | warn : String → Event
deriving DecidableEq

/-- The Groq client as a response oracle: `summarize n` and `score n` give
the outcome of the n-th chat-completion call issued from the respective
call site; none is a provider failure (a raised exception), some s a
successful response with content s.  The two call sites are counted
separately; this is only a re-parameterization of the per-call
nondeterminism of the single Python client object. -/
structure Client where
  summarize : Nat → Option String
  score : Nat → Option String

/-- Per-session execution state: how many calls each call site has issued
so far, and the chronological event trace. -/
structure RunState where
  sCalls : Nat
  cCalls : Nat
  trace : List Event
deriving DecidableEq

/-- Embeds `analyze_resume` (main.py lines 55-84): one chat-completion call
whose response content is returned; a provider failure propagates as an
exception, since `analyze_resume` has no try/except. -/
def analyze_resume (client : Client) (resume : String) (st : RunState) :
    Except String String × RunState :=
  let st1 : RunState :=
    { st with sCalls := st.sCalls + 1, trace := st.trace ++ [Event.summarize resume] }
  match client.summarize st.sCalls with
  | some content => (Except.ok content, st1)
  | none => (Except.error ("provider error"), st1)

/-- Embeds the jobs_info comprehension (main.py lines 136-143): each job of
the batch is tagged with its global index `idx + start_index`, its title,
and its description truncated to 400 characters; `enumerate` is rendered as
a recursion threading the running global index, which starts at
start_index. -/
def jobs_info : List Job → Nat → List JobInfo
  | [], _ => []
  | job :: rest, gidx =>
    { index := gidx, title := job.title, desc := strTake job.description 400 }
      :: jobs_info rest (gidx + 1)

/-- Embeds `analyze_job_batch` (main.py lines 110-167) with the recursive
retry rendered structurally on a fuel argument; the wrapper
`analyze_job_batch` passes fuel `4 - retry_count`, so exhausted fuel
coincides with the `retry_count >= 3` guard of line 130 and both return the
empty frame.  Control flow per invocation: the guard; then `analyze_resume`
(line 145, OUTSIDE the try, so a summarizer provider failure propagates);
then, inside the try, the chat call and `json.loads`/`pd.DataFrame` on its
response; on any exception, a 2-second sleep and a retry while
`retry_count < 3`, else the warning of line 166 and the empty frame. -/
def analyze_job_batch_go (client : Client) (resume : String) (jobs_batch : List Job)
    (start_index : Nat) : Nat → Nat → RunState → Except String Df × RunState
  | 0, _, st => (Except.ok [], st)
  | fuel + 1, retry_count, st =>
    if retry_count ≥ 3 then (Except.ok [], st)
    else
      match analyze_resume client resume st with
      | (Except.error e, st1) => (Except.error e, st1)
      | (Except.ok _resume_summary, st1) =>
        let info := jobs_info jobs_batch start_index
        let st2 : RunState :=
          { st1 with cCalls := st1.cCalls + 1, trace := st1.trace ++ [Event.chatScore info] }
        let attempt : Except String Df :=
          match client.score st1.cCalls with
          | none => Except.error ("provider error")
          | some content => parseToDf content
        match attempt with
        | Except.ok df => (Except.ok df, st2)
        | Except.error e =>
          if retry_count < 3 then
            let st3 : RunState := { st2 with trace := st2.trace ++ [Event.sleep 2] }
            analyze_job_batch_go client resume jobs_batch start_index fuel (retry_count + 1) st3
          else
            (Except.ok [],
              { st2 with trace := st2.trace ++
                  [Event.warn ("Batch " ++ toString start_index ++ " failed after retries: " ++ e)] })

/-- Wrapper `analyze_job_batch` with the source signature (the orchestrator calls
it with the default retry_count of 0). -/
def analyze_job_batch (client : Client) (resume : String) (jobs_batch : List Job)
    (start_index retry_count : Nat) (st : RunState) : Except String Df × RunState :=
  analyze_job_batch_go client resume jobs_batch start_index (4 - retry_count) retry_count st

/-- The loop of `analyze_jobs_in_batches` (main.py lines 192-202): slices
of batch_size postings starting at i = 0, batch_size, 2*batch_size, ...;
each batch is scored with retry_count 0; a frame that is not empty is
appended to the accumulator; every iteration ends with the pacing
`time.sleep(1)`.  The loop has no try/except, so a raised exception
propagates.  The first numeric argument is the iteration budget; the
wrapper passes jobs.length + 1, an upper bound on the iteration count
whenever batch_size > 0, so the budget never runs out. -/
def batchLoop (client : Client) (resume : String) (jobs : List Job) (batch_size : Nat) :
    Nat → Nat → List Df → RunState → Except String (List Df) × RunState
  | 0, _, acc, st => (Except.ok acc, st)
  | fuel + 1, i, acc, st =>
    if i < jobs.length then
      let batch := (jobs.drop i).take batch_size
      match analyze_job_batch client resume batch i 0 st with
      | (Except.error e, st1) => (Except.error e, st1)
      | (Except.ok bm, st1) =>
        let acc1 := if dfEmpty bm then acc else acc ++ [bm]
        let st2 : RunState := { st1 with trace := st1.trace ++ [Event.sleep 1] }
        batchLoop client resume jobs batch_size fuel (i + batch_size) acc1 st2
    else (Except.ok acc, st)

/-- Embeds `analyze_jobs_in_batches` (main.py lines 169-210): batch_size 0
makes `range` raise ValueError; otherwise the batch loop runs over all
postings, then the accumulated frames are concatenated (`pd.concat` with
ignore_index, i.e. list concatenation of the rows) and sorted descending by
match_score; when no batch contributed a frame the empty frame is returned,
with no warning. -/
def analyze_jobs_in_batches (client : Client) (resume : String) (jobs : List Job)
    (batch_size : Nat) (st : RunState) : Except String Df × RunState :=
  if batch_size = 0 then (Except.error ("ValueError: range arg 3 must not be zero"), st)
  else
    match batchLoop client resume jobs batch_size (jobs.length + 1) 0 [] st with
    | (Except.error e, st1) => (Except.error e, st1)
    | (Except.ok all_matches, st1) =>
      if all_matches.isEmpty then (Except.ok [], st1)
      else
        match sort_values_desc all_matches.flatten with
        | Except.ok final => (Except.ok final, st1)
        | Except.error e => (Except.error e, st1)

/-- Number of summarizer LLM calls recorded in a trace. -/
def countSummarize (tr : List Event) : Nat :=
  (tr.filter fun e => match e with | Event.summarize _ => true | _ => false).length

/-- Number of caller-visible warnings recorded in a trace. -/
def countWarn (tr : List Event) : Nat :=
  (tr.filter fun e => match e with | Event.warn _ => true | _ => false).length

/-- The jobs_info descriptor lists transmitted by the scorer calls of a
trace, in order. -/
def chatInfos (tr : List Event) : List (List JobInfo) :=
  tr.filterMap fun e => match e with | Event.chatScore info => some info | _ => none

/-- All global job indices ever transmitted to the scorer in a trace. -/
def submittedIdx (tr : List Event) : List Nat :=
  (chatInfos tr).flatten.map JobInfo.index

/-- The job_index column of a frame, row by row. -/
def dfIdx (df : Df) : List (Option Int) :=
  df.map fun r =>
    match lookupField r ("job_index") with
    | some (JValue.jnum n) => some n
    | _ => none

/-- The match_score column of a frame, row by row. -/
def dfScores (df : Df) : List (Option Int) := df.map rowScore

/-- The initial state of a session. -/
def st0 : RunState := { sCalls := 0, cCalls := 0, trace := [] }

/-- A generic posting fixture. -/
def jobT : Job := { title := "t", description := "" }

/-- n identical posting fixtures (only their position matters). -/
def jobsN (n : Nat) : List Job := List.replicate n jobT

/-- Scorer response fixture: batch with global indices 0 and 1, scores 50
and 90. -/
def batch1json : String :=
  "[\x7b\"job_index\": 0, \"match_score\": 50\x7d, \x7b\"job_index\": 1, \"match_score\": 90\x7d]"

/-- Scorer response fixture: batch with global indices 2 and 3, scores 90
and 10. -/
def batch2json : String :=
  "[\x7b\"job_index\": 2, \"match_score\": 90\x7d, \x7b\"job_index\": 3, \"match_score\": 10\x7d]"

/-- A client whose two scorer calls return `batch1json` and `batch2json`
and whose summarizer always succeeds. -/
def clientTwoBatch : Client :=
  { summarize := fun _ => some ("S"),
    score := fun n => if n = 0 then some batch1json else if n = 1 then some batch2json else none }

/-- A client whose summarizer succeeds only on its first call and whose
scorer always succeeds. -/
def clientSumFail2 : Client :=
  { summarize := fun n => if n = 0 then some ("S") else none,
    score := fun _ => some batch1json }

/-- Scorer response fixture: batch with global indices 2 and 3, scores 30
and 80. -/
def c3json : String :=
  "[\x7b\"job_index\": 2, \"match_score\": 30\x7d, \x7b\"job_index\": 3, \"match_score\": 80\x7d]"

/-- A client whose first three scorer calls fail (exhausting the first
retries of the first batch) and whose fourth returns `c3json`; the summarizer always
succeeds. -/
def clientBatch1Fails : Client :=
  { summarize := fun _ => some ("S"),
    score := fun n => if n = 3 then some c3json else none }

/-- A client whose scorer always fails and whose summarizer always
succeeds. -/
def clientFail : Client :=
  { summarize := fun _ => some ("S"), score := fun _ => none }

/-- A client whose scorer always returns the empty JSON array. -/
def clientEmptyArr : Client :=
  { summarize := fun _ => some ("S"), score := fun _ => some ("[]") }

/-- A client whose scorer always returns one record with index 0 and score
70. -/
def clientC6 : Client :=
  { summarize := fun _ => some ("S"),
    score := fun _ => some ("[\x7b\"job_index\": 0, \"match_score\": 70\x7d]") }

/-- A client whose scorer always returns one record with index 0 and score
80. -/
def clientC8 : Client :=
  { summarize := fun _ => some ("S"),
    score := fun _ => some ("[\x7b\"job_index\": 0, \"match_score\": 80\x7d]") }

/-- A client whose scorer always returns the given string and whose
summarizer always succeeds. -/
def clientWith (s : String) : Client :=
  { summarize := fun _ => some ("S"), score := fun _ => some s }

/-- The frame a successful try body produced, or the empty frame when the
exception path ended the batch. -/
def okOrEmpty (x : Except String Df) : Df :=
  match x with
  | Except.ok df => df
  | Except.error _ => []

/-- Did the computation raise, with the given exception message. -/
def isErrorWith (x : Except String Df) (m : String) : Bool :=
  match x with
  | Except.error e => e = m
  | Except.ok _ => false

/-- The informally quoted response text consisting of one object whose key
job_index is wrapped in single-quote characters (code point 39) instead of
double quotes — the input the claimed quote-normalization strategy would
repair. -/
def singleQuotedJson : String :=
  String.mk ('[' :: '\x7b' :: Char.ofNat 39 :: ("job_index".data ++
    (Char.ofNat 39 :: ':' :: ' ' :: '0' :: '\x7d' :: [']'])))

/-- Sanity of the json.loads embedding on the shapes the verified runs
exercise: the empty array, null, signed integers, an array of objects, a
truncated document and trailing garbage. -/
theorem jsonLoads_sanity :
    jsonLoads ("[]") = Except.ok (JValue.jarr []) ∧
    jsonLoads ("null") = Except.ok JValue.jnull ∧
    jsonLoads (" [1, -2, 30] ") =
      Except.ok (JValue.jarr [JValue.jnum 1, JValue.jnum (-2), JValue.jnum 30]) ∧
    jsonLoads ("[\x7b\"job_index\": 0, \"match_score\": 90\x7d]") =
      Except.ok (JValue.jarr
        [JValue.jobj [("job_index", JValue.jnum 0), ("match_score", JValue.jnum 90)]]) ∧
    (jsonLoads ("[1,")).isOk = false ∧
    (jsonLoads ("[1] extra")).isOk = false :=
  ⟨rfl, rfl, rfl, rfl, rfl, rfl⟩

/-- The jobs_info descriptor list tags the jobs of a batch with the
consecutive global indices start_index, start_index + 1, ... (main.py line
138: idx + start_index). -/
theorem jobs_info_index_map (batch : List Job) :
    ∀ start : Nat, (jobs_info batch start).map JobInfo.index = List.range' start batch.length := by
  induction batch with
  | nil => intro start; rfl
  | cons j rest ih => intro start; simp [jobs_info, List.range', ih]

/-- Warnings in a concatenated trace. -/
theorem countWarn_append (a b : List Event) :
    countWarn (a ++ b) = countWarn a + countWarn b := by
  simp [countWarn, List.filter_append]

/-- No invocation of the batch scorer ever appends a warning event: the
warning of main.py line 166 sits under `retry_count >= 3` inside the except
clause, but the guard of line 130 has already returned on such a
retry_count, so the except clause only runs with retry_count < 3 and always
takes the retry branch. -/
theorem go_no_warn (client : Client) (resume : String) (jobs : List Job) (i : Nat) :
    ∀ (fuel rc : Nat) (st : RunState),
      countWarn (analyze_job_batch_go client resume jobs i fuel rc st).snd.trace
        = countWarn st.trace := by
  intro fuel
  induction fuel with
  | zero => intro rc st; rfl
  | succ f ih =>
    intro rc st
    by_cases h3 : rc ≥ 3
    · simp [analyze_job_batch_go, h3]
    · have h3' : rc < 3 := Nat.lt_of_not_le h3
      cases hsum : client.summarize st.sCalls with
      | none =>
        simp [analyze_job_batch_go, analyze_resume, h3, hsum, countWarn_append, countWarn]
      | some content =>
        cases hsc : client.score st.cCalls with
        | none =>
          simp only [analyze_job_batch_go, analyze_resume, hsum, hsc]
          rw [if_neg h3, if_pos h3', ih]
          simp [countWarn_append, countWarn]
        | some content2 =>
          cases hp : parseToDf content2 with
          | ok df =>
            simp [analyze_job_batch_go, analyze_resume, h3, hsum, hsc, hp,
              countWarn_append, countWarn]
          | error e =>
            simp only [analyze_job_batch_go, analyze_resume, hsum, hsc, hp]
            rw [if_neg h3, if_pos h3', ih]
            simp [countWarn_append, countWarn]

/-- When the summarizer always succeeds and the scorer call always fails,
every invocation of the batch scorer returns the empty frame (it never
raises). -/
theorem go_fail_empty (client : Client) (resume : String) (jobs : List Job) (i : Nat)
    (hS : ∀ n, (client.summarize n).isSome) (hC : ∀ n, client.score n = none) :
    ∀ (fuel rc : Nat) (st : RunState),
      (analyze_job_batch_go client resume jobs i fuel rc st).fst = Except.ok [] := by
  intro fuel
  induction fuel with
  | zero => intro rc st; rfl
  | succ f ih =>
    intro rc st
    by_cases h3 : rc ≥ 3
    · simp [analyze_job_batch_go, h3]
    · obtain ⟨content, hsum⟩ := Option.isSome_iff_exists.mp (hS st.sCalls)
      have h3' : rc < 3 := Nat.lt_of_not_le h3
      simp [analyze_job_batch_go, analyze_resume, h3, hsum, hC, h3', ih]

/-- C1 counterexample: the parsing step of the batch scorer (json.loads
followed by pd.DataFrame, main.py lines 160-161) accepts the response
string consisting of one object carrying only a job_index and returns that
single record unchanged, so the result is a non-empty list whose element
lacks the match_score key — the claimed validation (every element contains
both job_index and match_score) does not exist in the code.  Neither do the
tolerant fallback strategies: the single-quoted input that the claimed
strategy 3 would repair, and the prose-wrapped input the claimed strategy 4
would extract the bracketed substring from, both make the parse raise
(consumed by the retry path) instead of yielding records. -/
theorem c1_counterexample :
    (parseToDf ("[\x7b\"job_index\": 0\x7d]") = Except.ok [[("job_index", JValue.jnum 0)]] ∧
      ¬ (∀ r ∈ ([[("job_index", JValue.jnum 0)]] : Df),
          (lookupField r ("job_index")).isSome = true ∧
            (lookupField r ("match_score")).isSome = true)) ∧
    (parseToDf singleQuotedJson).isOk = false ∧
    (parseToDf ("here are the results: [\x7b\"job_index\": 0, \"match_score\": 90\x7d] thanks")).isOk
      = false := by
  refine ⟨⟨rfl, fun h => ?_⟩, rfl, rfl⟩
  have h2 := (h [("job_index", JValue.jnum 0)] (by simp)).2
  have h3 : (lookupField [("job_index", JValue.jnum 0)] ("match_score")).isSome = false := rfl
  exact absurd (h2.symm.trans h3) (by decide)

/-- C1 (amended): the parsing step applied to the raw LLM response is a
single strict json.loads followed by pd.DataFrame, with no validation of
the parsed elements and no tolerant fallback strategies; the parse result
is returned verbatim when it succeeds, and any parse exception is consumed
by the retry path, which after exhaustion yields the empty frame — so for
every response string the scorer returns (never raises) either the strict
parse result or the empty frame. -/
theorem c1_amended (s resume : String) (jobs : List Job) (i : Nat) (st : RunState) :
    (analyze_job_batch (clientWith s) resume jobs i 0 st).fst
      = Except.ok (okOrEmpty (parseToDf s)) := by
  cases h : parseToDf s with
  | ok df =>
    simp [analyze_job_batch, analyze_job_batch_go, analyze_resume, clientWith, okOrEmpty, h]
  | error e =>
    simp [analyze_job_batch, analyze_job_batch_go, analyze_resume, clientWith, okOrEmpty, h]

/-- C2: in a session over 4 postings with batch size 2 in which every LLM
call succeeds, the resume summarizer is invoked twice — once per batch,
from inside analyze_job_batch (main.py line 145) — not once per session as
specified; the spec is the intent (the summary is even computed once in
main and passed in, then re-summarized per batch), so this is a code
defect. -/
theorem c2_bug_eval :
    countSummarize (analyze_jobs_in_batches clientTwoBatch ("R") (jobsN 4) 2 st0).snd.trace
      = 2 := rfl

/-- C3 counterexample: a provider failure in the per-batch resume-summarizer
call (main.py line 145, which sits OUTSIDE the try of lines 149-167)
propagates out of analyze_job_batch and aborts the batch loop, which has no
try/except: with 4 postings in two batches, batch 1 succeeding and the
summarizer failing on batch 2, the orchestrator raises instead of returning
a result set containing the records of batch 1. -/
theorem c3_counterexample :
    isErrorWith (analyze_jobs_in_batches clientSumFail2 ("R") (jobsN 4) 2 st0).fst
        ("provider error") = true ∧
    (analyze_jobs_in_batches clientSumFail2 ("R") (jobsN 4) 2 st0).snd =
      { sCalls := 2, cCalls := 1,
        trace := [Event.summarize ("R"),
                  Event.chatScore [⟨0, "t", ""⟩, ⟨1, "t", ""⟩],
                  Event.sleep 1,
                  Event.summarize ("R")] } :=
  ⟨by decide, by decide⟩

/-- C3 (amended): exceptions from the chat-scoring call of a batch or response
parsing never abort the loop — the scorer catches them, retries up to 3
attempts and then yields the empty frame — so when the scoring call of
one batch fails all retries while another batch succeeds (and every per-batch
summarizer call succeeds), the final result contains exactly the
records of the successful batch, ranked descending: here batch 1 (indices 0, 1)
fails all three attempts and batch 2 (indices 2, 3; scores 30, 80) succeeds,
giving the ranked records [(3, 80), (2, 30)]. -/
theorem c3_amended :
    (analyze_jobs_in_batches clientBatch1Fails ("R") (jobsN 4) 2 st0).fst.isOk = true ∧
    dfIdx (okOrEmpty (analyze_jobs_in_batches clientBatch1Fails ("R") (jobsN 4) 2 st0).fst)
        = [some 3, some 2] ∧
    dfScores (okOrEmpty (analyze_jobs_in_batches clientBatch1Fails ("R") (jobsN 4) 2 st0).fst)
        = [some 80, some 30] ∧
    (analyze_jobs_in_batches clientBatch1Fails ("R") (jobsN 4) 2 st0).snd =
      { sCalls := 4, cCalls := 4,
        trace := [Event.summarize ("R"),
                  Event.chatScore [⟨0, "t", ""⟩, ⟨1, "t", ""⟩],
                  Event.sleep 2,
                  Event.summarize ("R"),
                  Event.chatScore [⟨0, "t", ""⟩, ⟨1, "t", ""⟩],
                  Event.sleep 2,
                  Event.summarize ("R"),
                  Event.chatScore [⟨0, "t", ""⟩, ⟨1, "t", ""⟩],
                  Event.sleep 2,
                  Event.sleep 1,
                  Event.summarize ("R"),
                  Event.chatScore [⟨2, "t", ""⟩, ⟨3, "t", ""⟩],
                  Event.sleep 1] } :=
  ⟨by decide, by decide, by decide, by decide⟩

/-- C4: for a batch whose scoring call keeps failing (and whose
summarizer calls succeed), analyze_job_batch called with the default
retry_count 0 makes exactly 3 scoring attempts with a fixed 2-second sleep
after each failed attempt (hence a 2-second backoff between consecutive
attempts), then returns the empty frame without raising and without
warning. -/
theorem c4_retry_cap (client : Client) (resume : String) (jobs : List Job) (i : Nat)
    (hS : ∀ n, (client.summarize n).isSome) (hC : ∀ n, client.score n = none) :
    analyze_job_batch client resume jobs i 0 st0 =
      (Except.ok [],
       { sCalls := 3, cCalls := 3,
         trace := [Event.summarize resume, Event.chatScore (jobs_info jobs i), Event.sleep 2,
                   Event.summarize resume, Event.chatScore (jobs_info jobs i), Event.sleep 2,
                   Event.summarize resume, Event.chatScore (jobs_info jobs i), Event.sleep 2] }) := by
  obtain ⟨s0, h0⟩ := Option.isSome_iff_exists.mp (hS 0)
  obtain ⟨s1, h1⟩ := Option.isSome_iff_exists.mp (hS 1)
  obtain ⟨s2, h2⟩ := Option.isSome_iff_exists.mp (hS 2)
  simp [analyze_job_batch, analyze_job_batch_go, analyze_resume, st0, h0, h1, h2,
    hC 0, hC 1, hC 2]

/-- Witness for C4 at a concrete always-failing client and a one-posting
batch. -/
theorem c4_witness :
    analyze_job_batch clientFail ("R") (jobsN 1) 0 0 st0 =
      (Except.ok [],
       { sCalls := 3, cCalls := 3,
         trace := [Event.summarize ("R"), Event.chatScore [⟨0, "t", ""⟩], Event.sleep 2,
                   Event.summarize ("R"), Event.chatScore [⟨0, "t", ""⟩], Event.sleep 2,
                   Event.summarize ("R"), Event.chatScore [⟨0, "t", ""⟩], Event.sleep 2] }) := by
  have h := c4_retry_cap clientFail ("R") (jobsN 1) 0 (fun _ => rfl) (fun _ => rfl)
  rw [h]
  rfl

/-- C5 counterexample: with 80 postings and batch size 3, posting number 79
is submitted to the scorer — the orchestrator has no 50-posting cap (the
loop at main.py line 192 ranges over the whole list). -/
theorem c5_counterexample :
    79 ∈ submittedIdx (analyze_jobs_in_batches clientEmptyArr ("R") (jobsN 80) 3 st0).snd.trace := by
  decide

/-- C5 (amended): the orchestrator submits every posting to the matching
pipeline — given 80 postings, all 80 global indices 0..79 are transmitted
to the scorer; no cap of 50 exists anywhere in the loop (the scraper
request caps results_wanted at 60, but that is a different component and a
different number). -/
theorem c5_amended :
    submittedIdx (analyze_jobs_in_batches clientEmptyArr ("R") (jobsN 80) 3 st0).snd.trace
      = List.range 80 := rfl

/-- C6 counterexample: an empty resume is not validated — with one posting
and an empty resume the orchestrator still issues the per-batch summarizer
call and the scoring call (2 LLM calls), emits no warning, and even returns
a non-empty result set. -/
theorem c6_counterexample :
    (analyze_jobs_in_batches clientC6 ("") (jobsN 1) 3 st0).fst.isOk = true ∧
    dfIdx (okOrEmpty (analyze_jobs_in_batches clientC6 ("") (jobsN 1) 3 st0).fst)
        = [some 0] ∧
    dfScores (okOrEmpty (analyze_jobs_in_batches clientC6 ("") (jobsN 1) 3 st0).fst)
        = [some 70] ∧
    (analyze_jobs_in_batches clientC6 ("") (jobsN 1) 3 st0).snd =
      { sCalls := 1, cCalls := 1,
        trace := [Event.summarize (""), Event.chatScore [⟨0, "t", ""⟩], Event.sleep 1] } :=
  ⟨by decide, by decide, by decide, by decide⟩

/-- C6 (amended): an empty posting sequence yields the empty result set
with no LLM calls, but also with no caller-visible warning (the state is
returned unchanged); an empty resume is not checked at all — batches are
processed normally and LLM calls are issued (see the counterexample). -/
theorem c6_amended (client : Client) (resume : String) (batch_size : Nat) (st : RunState)
    (h : 0 < batch_size) :
    analyze_jobs_in_batches client resume [] batch_size st = (Except.ok [], st) := by
  have hbz : batch_size ≠ 0 := Nat.pos_iff_ne_zero.mp h
  simp [analyze_jobs_in_batches, batchLoop, hbz]

/-- Witness for C6 (amended) at batch size 3. -/
theorem c6_witness :
    0 < 3 ∧ analyze_jobs_in_batches clientFail ("x") [] 3 st0 = (Except.ok [], st0) :=
  ⟨by decide, c6_amended clientFail ("x") 3 st0 (by decide)⟩

/-- C7: the final MatchResultSet is the concatenation of the per-batch
result sequences in batch order, sorted descending by match_score with a
tie-stable sort — pandas nargsort reverses the values together with their
indices before the ascending argsort (stable at these sizes) and reverses
the indexer again afterwards, the two reversals cancelling on groups of
equal keys — so scores [50, 90, 90, 10] produced across two batches in
that order (job indices 0, 1, 2, 3) yield [90, 90, 50, 10] with the two
90s in their ORIGINAL relative order: indices 1, 2, 0, 3. -/
theorem c7_ranking_stability :
    (analyze_jobs_in_batches clientTwoBatch ("R") (jobsN 4) 2 st0).fst =
      Except.ok [[("job_index", JValue.jnum 1), ("match_score", JValue.jnum 90)],
                 [("job_index", JValue.jnum 2), ("match_score", JValue.jnum 90)],
                 [("job_index", JValue.jnum 0), ("match_score", JValue.jnum 50)],
                 [("job_index", JValue.jnum 3), ("match_score", JValue.jnum 10)]] := rfl

/-- C8 counterexample: a scorer run whose response parses to one record
with only job_index and match_score returns that record with exactly those
two fields — no normalization step exists: short_reason, key_changes,
title and company are absent and no documented defaults (50, Good potential
match, ...) are filled in. -/
theorem c8_counterexample :
    (analyze_job_batch clientC8 ("R") (jobsN 1) 0 0 st0).fst =
        Except.ok [[("job_index", JValue.jnum 0), ("match_score", JValue.jnum 80)]] ∧
    lookupField [("job_index", JValue.jnum 0), ("match_score", JValue.jnum 80)] ("short_reason")
        = none ∧
    lookupField [("job_index", JValue.jnum 0), ("match_score", JValue.jnum 80)] ("key_changes")
        = none ∧
    lookupField [("job_index", JValue.jnum 0), ("match_score", JValue.jnum 80)] ("title")
        = none ∧
    lookupField [("job_index", JValue.jnum 0), ("match_score", JValue.jnum 80)] ("company")
        = none :=
  ⟨rfl, rfl, rfl, rfl, rfl⟩

/-- C8 (amended): the batch scorer performs no normalization at all — when
the response parses, the resulting records are returned verbatim, carrying
exactly the fields present in the parsed JSON; missing fields are not
filled with any defaults. -/
theorem c8_amended (s resume : String) (jobs : List Job) (i : Nat) (st : RunState) (rows : Df)
    (h : parseToDf s = Except.ok rows) :
    (analyze_job_batch (clientWith s) resume jobs i 0 st).fst = Except.ok rows := by
  simp [analyze_job_batch, analyze_job_batch_go, analyze_resume, clientWith, h]

/-- Witness for C8 (amended) at a response missing the match_score field:
the record comes back with only job_index, no default score of 50. -/
theorem c8_witness :
    parseToDf ("[\x7b\"job_index\": 1\x7d]") = Except.ok [[("job_index", JValue.jnum 1)]] ∧
    (analyze_job_batch (clientWith ("[\x7b\"job_index\": 1\x7d]")) ("R") [] 0 0 st0).fst =
      Except.ok [[("job_index", JValue.jnum 1)]] :=
  ⟨rfl, c8_amended ("[\x7b\"job_index\": 1\x7d]") ("R") [] 0 st0 [[("job_index", JValue.jnum 1)]] rfl⟩

/-- C9: the jobs_info descriptor list tags every job with its global index
local_offset + start_index (so a batch of length n starting at start_index
carries exactly the indices start_index, ..., start_index + n - 1), and the
orchestrator partitions the postings into consecutive non-overlapping
batches of the configured size whose start indices are 0, batch_size,
2*batch_size, ...: for 7 postings and batch size 3 the transmitted
descriptor lists carry the indices [0,1,2], [3,4,5], [6], the third batch
starting at global index 6. -/
theorem c9_partition_and_indexing :
    (∀ (batch : List Job) (start : Nat),
        (jobs_info batch start).map JobInfo.index = List.range' start batch.length) ∧
    (chatInfos (analyze_jobs_in_batches clientEmptyArr ("R") (jobsN 7) 3 st0).snd.trace).map
        (fun info => info.map JobInfo.index) = [[0, 1, 2], [3, 4, 5], [6]] :=
  ⟨fun batch start => jobs_info_index_map batch start, rfl⟩

/-- C10: the failure warning of main.py line 166 is unreachable — no
invocation of analyze_job_batch ever appends a warning to the trace (the
guard of line 130 returns before the except clause can see retry_count at
or above 3, so the except clause always takes the retry branch) — and a
batch whose scoring calls keep failing yields the empty frame, for any
starting retry_count. -/
theorem c10_no_warn_and_empty (client : Client) (resume : String) (jobs : List Job)
    (i rc : Nat) (st : RunState)
    (hS : ∀ n, (client.summarize n).isSome) (hC : ∀ n, client.score n = none) :
    countWarn (analyze_job_batch client resume jobs i rc st).snd.trace = countWarn st.trace ∧
    (analyze_job_batch client resume jobs i rc st).fst = Except.ok [] :=
  ⟨go_no_warn client resume jobs i (4 - rc) rc st,
   go_fail_empty client resume jobs i hS hC (4 - rc) rc st⟩

/-- Witness for C10 at a concrete always-failing client, starting at
retry_count 1. -/
theorem c10_witness :
    countWarn (analyze_job_batch clientFail ("R") (jobsN 1) 0 1 st0).snd.trace
        = countWarn st0.trace ∧
    (analyze_job_batch clientFail ("R") (jobsN 1) 0 1 st0).fst = Except.ok [] :=
  c10_no_warn_and_empty clientFail ("R") (jobsN 1) 0 1 st0 (fun _ => rfl) (fun _ => rfl)
